import Mathlib

/-!
# smart-pdf: the JNI bridge to the spdfcore provider library

Shallow embedding of `android/app/src/main/cpp/spdfcore_jni.cpp`.

* The file-scope globals (nine function pointers and the module handle) are the
  fields of `State`.
* The provider library is external code.  Every exported entry point is an
  arbitrary function that threads an abstract provider world `W` (the state of
  the provider and of the file system), so that two calls with the same
  arguments may answer differently.
* Every observable action of the bridge (dlopen, dlsym, dlclose, a call through
  a function pointer, a release through `free_c_string_ptr`) is recorded in a
  trace of `Event`s.  Log lines are not modelled.
* A call through a null function pointer does not return; a run in which that
  happens has `ret = none`.
-/

namespace Spdfcore

/-! ## Data model (spdfcore.h) -/

/-- The enum `PdfErrorCode` of spdfcore.h. -/
inductive PdfErrorCode where
  | Success
  | FileNotFound
  | InvalidPdf
  | EncryptedPdf
  | PermissionDenied
  | OutOfMemory
  | InvalidParameter
  | UnsupportedFeature
  | IoError
  | ParseError
  | EncryptionError
  | UnknownError
  deriving DecidableEq, Repr

/-- The values of the out-parameters and the returned boolean after one provider
call: `out` is the typed output (`*is_valid`, `*page_count`, `*file_size`; `Unit`
for the file-producing calls), `error_code` is `*error_code`, `error_message` is
`*error_message` (`none` for a null pointer). -/
structure Reply (α : Type) where
  result : Bool
  out : α
  error_code : PdfErrorCode
  error_message : Option String

/-- Type of `pdf_merge_files`: paths array, `path_count`, `output_path`. -/
abbrev pdf_merge_files_func (W : Type) := List String → Nat → String → W → Reply Unit × W
/-- Type of `pdf_validate`: `file_path`; the output is `*is_valid`. -/
abbrev pdf_validate_func (W : Type) := String → W → Reply Bool × W
/-- Type of `pdf_get_page_count`: `file_path`; the output is `*page_count` (int32_t). -/
abbrev pdf_get_page_count_func (W : Type) := String → W → Reply Int × W
/-- Type of `pdf_get_file_size`: `file_path`; the output is `*file_size` (uint64_t). -/
abbrev pdf_get_file_size_func (W : Type) := String → W → Reply Nat × W
/-- Type of `pdf_split_by_pages`: `input_path`, pages array, `page_count`, `output_path`. -/
abbrev pdf_split_by_pages_func (W : Type) := String → List Int → Nat → String → W → Reply Unit × W
/-- Type of `pdf_extract_page`: `input_path`, `page_number`, `output_path`. -/
abbrev pdf_extract_page_func (W : Type) := String → Int → String → W → Reply Unit × W
/-- Type of `pdf_split_at_page`: `input_path`, `split_page`, `output_prefix`. -/
abbrev pdf_split_at_page_func (W : Type) := String → Int → String → W → Reply Unit × W
/-- Type of `spdfcore_version`: no argument; `none` is a null result. -/
abbrev spdfcore_version_func (W : Type) := W → Option String × W
/-- Type of `free_c_string`: the string to release. -/
abbrev free_c_string_func (W : Type) := String → W → W

/-- The symbols exported by one build of `libspdfcore_ffi.so`: what `dlsym`
answers for each of the nine names (`none` for a null result). -/
structure Module (W : Type) where
  pdf_merge_files : Option (pdf_merge_files_func W)
  pdf_validate : Option (pdf_validate_func W)
  pdf_get_page_count : Option (pdf_get_page_count_func W)
  free_c_string : Option (free_c_string_func W)
  pdf_get_file_size : Option (pdf_get_file_size_func W)
  pdf_split_by_pages : Option (pdf_split_by_pages_func W)
  pdf_extract_page : Option (pdf_extract_page_func W)
  pdf_split_at_page : Option (pdf_split_at_page_func W)
  spdfcore_version : Option (spdfcore_version_func W)

/-- What `dlopen("libspdfcore_ffi.so", RTLD_LAZY)` finds at the moment of the
call: `none` when the module cannot be opened. -/
abbrev Provider (W : Type) := Option (Module W)

/-- The file-scope globals of spdfcore_jni.cpp (lines 25-34). -/
structure State (W : Type) where
  pdf_merge_files_ptr : Option (pdf_merge_files_func W)
  pdf_validate_ptr : Option (pdf_validate_func W)
  pdf_get_page_count_ptr : Option (pdf_get_page_count_func W)
  pdf_get_file_size_ptr : Option (pdf_get_file_size_func W)
  pdf_split_by_pages_ptr : Option (pdf_split_by_pages_func W)
  pdf_extract_page_ptr : Option (pdf_extract_page_func W)
  pdf_split_at_page_ptr : Option (pdf_split_at_page_func W)
  spdfcore_version_ptr : Option (spdfcore_version_func W)
  free_c_string_ptr : Option (free_c_string_func W)
  spdfcore_ffi_handle : Option (Module W)

/-- The static initialisers: every global is `nullptr`. -/
def State.initial (W : Type) : State W :=
  ⟨none, none, none, none, none, none, none, none, none, none⟩

/-- A provider entry point together with the arguments it is called with. -/
inductive Call where
  | pdf_merge_files (input_paths : List String) (path_count : Nat) (output_path : String)
  | pdf_validate (file_path : String)
  | pdf_get_page_count (file_path : String)
  | pdf_get_file_size (file_path : String)
  | pdf_extract_page (input_path : String) (page_number : Int) (output_path : String)
  | pdf_split_at_page (input_path : String) (split_page : Int) ( output_prefix : String)
  | spdfcore_version
  deriving DecidableEq, Repr

/-- Observable actions of the bridge. -/
inductive Event where
  /-- Call of `dlopen`; `opened` tells whether it returned a handle. -/
  | dlopen (opened : Bool)
  /-- Call of `dlsym` for `symbol`; `found` tells whether it returned non-null. -/
  | dlsym (symbol : String) (found : Bool)
  /-- Call of `dlclose` on the handle opened by this attempt. -/
  | dlclose
  /-- A provider entry point was invoked; `error_message` is what it left in
  `*error_message`. -/
  | call (c : Call) (error_message : Option String)
  /-- The string was passed to `free_c_string_ptr`. -/
  | free_c_string (str : String)
  deriving DecidableEq, Repr

/-- Outcome of `init_spdfcore_ffi`: the returned bool, the globals afterwards,
and the loader actions performed. -/
structure LoadRun (W : Type) where
  ret : Bool
  state : State W
  trace : List Event

/-- Initialize the dynamic library (spdfcore_jni.cpp lines 37-110). -/
def init_spdfcore_ffi {W : Type} (provider : Provider W) (s : State W) : LoadRun W :=
  match s.spdfcore_ffi_handle with
  | some _ => ⟨true, s, []⟩
  | none =>
    match provider with
    | none => ⟨false, { s with spdfcore_ffi_handle := none }, [Event.dlopen false]⟩
    | some m =>
      let s0 := { s with spdfcore_ffi_handle := some m }
      let t0 := [Event.dlopen true]
      let s1 := { s0 with pdf_merge_files_ptr := m.pdf_merge_files }
      let t1 := t0 ++ [Event.dlsym "pdf_merge_files" s1.pdf_merge_files_ptr.isSome]
      if s1.pdf_merge_files_ptr.isNone then
        ⟨false, { s1 with spdfcore_ffi_handle := none }, t1 ++ [Event.dlclose]⟩
      else
      let s2 := { s1 with pdf_validate_ptr := m.pdf_validate }
      let t2 := t1 ++ [Event.dlsym "pdf_validate" s2.pdf_validate_ptr.isSome]
      if s2.pdf_validate_ptr.isNone then
        ⟨false, { s2 with spdfcore_ffi_handle := none }, t2 ++ [Event.dlclose]⟩
      else
      let s3 := { s2 with pdf_get_page_count_ptr := m.pdf_get_page_count }
      let t3 := t2 ++ [Event.dlsym "pdf_get_page_count" s3.pdf_get_page_count_ptr.isSome]
      if s3.pdf_get_page_count_ptr.isNone then
        ⟨false, { s3 with spdfcore_ffi_handle := none }, t3 ++ [Event.dlclose]⟩
      else
      let s4 := { s3 with free_c_string_ptr := m.free_c_string }
      let t4 := t3 ++ [Event.dlsym "free_c_string" s4.free_c_string_ptr.isSome]
      if s4.free_c_string_ptr.isNone then
        ⟨false, { s4 with spdfcore_ffi_handle := none }, t4 ++ [Event.dlclose]⟩
      else
      let s5 := { s4 with pdf_get_file_size_ptr := m.pdf_get_file_size }
      let t5 := t4 ++ [Event.dlsym "pdf_get_file_size" s5.pdf_get_file_size_ptr.isSome]
      let s6 := { s5 with pdf_split_by_pages_ptr := m.pdf_split_by_pages }
      let t6 := t5 ++ [Event.dlsym "pdf_split_by_pages" s6.pdf_split_by_pages_ptr.isSome]
      let s7 := { s6 with pdf_extract_page_ptr := m.pdf_extract_page }
      let t7 := t6 ++ [Event.dlsym "pdf_extract_page" s7.pdf_extract_page_ptr.isSome]
      let s8 := { s7 with pdf_split_at_page_ptr := m.pdf_split_at_page }
      let t8 := t7 ++ [Event.dlsym "pdf_split_at_page" s8.pdf_split_at_page_ptr.isSome]
      let s9 := { s8 with spdfcore_version_ptr := m.spdfcore_version }
      let t9 := t8 ++ [Event.dlsym "spdfcore_version" s9.spdfcore_version_ptr.isSome]
      ⟨true, s9, t9⟩

/-! ## The facade operations -/

/-- Outcome of one JNI entry point: `ret` is the value handed back to Java
(`none` when the run called through a null function pointer and never returned),
`world` is the provider world afterwards, `trace` the provider calls and
releases performed, in order. -/
structure Run (W : Type) (α : Type) where
  ret : Option α
  world : W
  trace : List Event

/-- The statement `free_c_string_ptr(msg)` for a non-null `msg`: a call through
the global pointer.  Gives `none` when the pointer is null. -/
def call_free_c_string {W : Type} (s : State W) (msg : String) (w : W) :
    Option (W × List Event) :=
  match s.free_c_string_ptr with
  | none => none
  | some free_c_string => some (free_c_string msg w, [Event.free_c_string msg])

/-- The recurring block `if (error_message) { free_c_string_ptr(error_message); }`. -/
def free_if_set {W : Type} (s : State W) (error_message : Option String) (w : W) :
    Option (W × List Event) :=
  match error_message with
  | none => some (w, [])
  | some msg => call_free_c_string s msg w

/-- The expression `result && error_code == PdfErrorCode_Success`. -/
def Reply.succeeded {α : Type} (rep : Reply α) : Bool :=
  rep.result && (rep.error_code == PdfErrorCode.Success)

/-- The cast `(jlong)file_size` of a `uint64_t`: reinterpretation of the 64 bits
as a signed two-complement integer. -/
def jlong_of_uint64 (file_size : Nat) : Int :=
  if file_size % 2 ^ 64 < 2 ^ 63 then ((file_size % 2 ^ 64 : Nat) : Int)
  else ((file_size % 2 ^ 64 : Nat) : Int) - 2 ^ 64

/-- Helper function to convert Java string array to C string array
(lines 113-126): the loop appends the elements in index order. -/
def jstringArrayToVector (jarray : List String) : List String :=
  jarray.foldl (fun result str => result ++ [str]) []

/-- The loop of nativeMergeFiles over `inputPathsVec` (lines 165-191), from the
current element on: it appends each path to `inputPathsArray` and, when
`pdf_get_file_size_ptr` is set, probes the size of the file.  The message of a
probe is released only in the branch taken when the probe failed.  The value
is the part of `inputPathsArray` built from these elements. -/
def mergeInputLoop {W : Type} (s : State W) : List String → W → Run W (List String)
  | [], w => ⟨some [], w, []⟩
  | path :: rest, w =>
    match s.pdf_get_file_size_ptr with
    | none =>
      let r := mergeInputLoop s rest w
      ⟨r.ret.map (fun arr => path :: arr), r.world, r.trace⟩
    | some pdf_get_file_size =>
      let rep := (pdf_get_file_size path w).1
      let w1 := (pdf_get_file_size path w).2
      let t1 := [Event.call (Call.pdf_get_file_size path) rep.error_message]
      if rep.succeeded then
        let r := mergeInputLoop s rest w1
        ⟨r.ret.map (fun arr => path :: arr), r.world, t1 ++ r.trace⟩
      else
        match free_if_set s rep.error_message w1 with
        | none => ⟨none, w1, t1⟩
        | some (w2, t2) =>
          let r := mergeInputLoop s rest w2
          ⟨r.ret.map (fun arr => path :: arr), r.world, t1 ++ t2 ++ r.trace⟩

/-- The inner loop of the output verification (lines 232-244), from the current
element on, started with the running `total_input_size`: every input is probed
again, the size of a successful probe is added (uint64_t arithmetic), and the
message of every probe is released when set.  The value is `total_input_size`. -/
def mergeTotalLoop {W : Type} (s : State W) (pdf_get_file_size : pdf_get_file_size_func W) :
    List String → Nat → W → Run W Nat
  | [], total_input_size, w => ⟨some total_input_size, w, []⟩
  | path :: rest, total_input_size, w =>
    let rep := (pdf_get_file_size path w).1
    let w1 := (pdf_get_file_size path w).2
    let t1 := [Event.call (Call.pdf_get_file_size path) rep.error_message]
    let total := if rep.succeeded then (total_input_size + rep.out) % 2 ^ 64 else total_input_size
    match free_if_set s rep.error_message w1 with
    | none => ⟨none, w1, t1⟩
    | some (w2, t2) =>
      let r := mergeTotalLoop s pdf_get_file_size rest total w2
      ⟨r.ret, r.world, t1 ++ t2 ++ r.trace⟩

/-- The block "OUTPUT FILE VERIFICATION" of nativeMergeFiles (lines 221-270),
entered with the reply of the merge call.  It only logs; its value is `()`.
The message of the output-size probe is released only when that probe failed. -/
def mergeOutputVerification {W : Type} (s : State W) (inputPathsVec : List String)
    (outputPathStr : String) (merge : Reply Unit) (w : W) : Run W Unit :=
  match s.pdf_get_file_size_ptr with
  | none => ⟨some (), w, []⟩
  | some pdf_get_file_size =>
    if merge.succeeded then
      let rep := (pdf_get_file_size outputPathStr w).1
      let w1 := (pdf_get_file_size outputPathStr w).2
      let t1 := [Event.call (Call.pdf_get_file_size outputPathStr) rep.error_message]
      if rep.succeeded then
        let r := mergeTotalLoop s pdf_get_file_size inputPathsVec 0 w1
        ⟨r.ret.map (fun _ => ()), r.world, t1 ++ r.trace⟩
      else
        match free_if_set s rep.error_message w1 with
        | none => ⟨none, w1, t1⟩
        | some (w2, t2) => ⟨some (), w2, t1 ++ t2⟩
    else ⟨some (), w, []⟩

/-- JNI export Java_com_example_smart_1pdf_SpdfcorePlugin_nativeMergeFiles
(lines 137-283). -/
def nativeMergeFiles {W : Type} (s : State W) (inputPaths : List String)
    (outputPath : String) (w : W) : Run W Bool :=
  match s.pdf_merge_files_ptr with
  | none => ⟨some false, w, []⟩
  | some pdf_merge_files =>
    let inputPathsVec := jstringArrayToVector inputPaths
    let outputPathStr := outputPath
    let r1 := mergeInputLoop s inputPathsVec w
    match r1.ret with
    | none => ⟨none, r1.world, r1.trace⟩
    | some inputPathsArray =>
      let rep := (pdf_merge_files inputPathsArray inputPathsArray.length outputPathStr r1.world).1
      let w2 := (pdf_merge_files inputPathsArray inputPathsArray.length outputPathStr r1.world).2
      let t2 := r1.trace ++
        [Event.call (Call.pdf_merge_files inputPathsArray inputPathsArray.length outputPathStr)
          rep.error_message]
      match free_if_set s rep.error_message w2 with
      | none => ⟨none, w2, t2⟩
      | some (w3, t3) =>
        let r4 := mergeOutputVerification s inputPathsVec outputPathStr rep w3
        match r4.ret with
        | none => ⟨none, r4.world, t2 ++ t3 ++ r4.trace⟩
        | some _ => ⟨some rep.succeeded, r4.world, t2 ++ t3 ++ r4.trace⟩

/-- JNI export Java_com_example_smart_1pdf_SpdfcorePlugin_nativeValidateFile
(lines 285-331).  `file_opens` is the outcome of `fopen(filePathStr, "r")`. -/
def nativeValidateFile {W : Type} (s : State W) (filePath : String) (file_opens : Bool)
    (w : W) : Run W Bool :=
  match s.pdf_validate_ptr with
  | none => ⟨some false, w, []⟩
  | some pdf_validate =>
    if !file_opens then ⟨some false, w, []⟩
    else
      let rep := (pdf_validate filePath w).1
      let w1 := (pdf_validate filePath w).2
      let t1 := [Event.call (Call.pdf_validate filePath) rep.error_message]
      match free_if_set s rep.error_message w1 with
      | none => ⟨none, w1, t1⟩
      | some (w2, t2) =>
        ⟨some (rep.result && rep.out && (rep.error_code == PdfErrorCode.Success)), w2, t1 ++ t2⟩

/-- JNI export Java_com_example_smart_1pdf_SpdfcorePlugin_nativeGetPageCount
(lines 333-372); the value is a jint. -/
def nativeGetPageCount {W : Type} (s : State W) (filePath : String) (w : W) : Run W Int :=
  match s.pdf_get_page_count_ptr with
  | none => ⟨some (-1), w, []⟩
  | some pdf_get_page_count =>
    let rep := (pdf_get_page_count filePath w).1
    let w1 := (pdf_get_page_count filePath w).2
    let t1 := [Event.call (Call.pdf_get_page_count filePath) rep.error_message]
    match free_if_set s rep.error_message w1 with
    | none => ⟨none, w1, t1⟩
    | some (w2, t2) =>
      if rep.succeeded then ⟨some rep.out, w2, t1 ++ t2⟩
      else ⟨some (-1), w2, t1 ++ t2⟩

/-- JNI export Java_com_example_smart_1pdf_SpdfcorePlugin_nativeGetFileSize
(lines 374-412); the value is a jlong. -/
def nativeGetFileSize {W : Type} (s : State W) (filePath : String) (w : W) : Run W Int :=
  match s.pdf_get_file_size_ptr with
  | none => ⟨some (-1), w, []⟩
  | some pdf_get_file_size =>
    let rep := (pdf_get_file_size filePath w).1
    let w1 := (pdf_get_file_size filePath w).2
    let t1 := [Event.call (Call.pdf_get_file_size filePath) rep.error_message]
    match free_if_set s rep.error_message w1 with
    | none => ⟨none, w1, t1⟩
    | some (w2, t2) =>
      if rep.succeeded then ⟨some (jlong_of_uint64 rep.out), w2, t1 ++ t2⟩
      else ⟨some (-1), w2, t1 ++ t2⟩

/-- JNI export Java_com_example_smart_1pdf_SpdfcorePlugin_nativeExtractPage
(lines 414-448). -/
def nativeExtractPage {W : Type} (s : State W) (inputPath : String) (pageNumber : Int)
    (outputPath : String) (w : W) : Run W Bool :=
  match s.pdf_extract_page_ptr with
  | none => ⟨some false, w, []⟩
  | some pdf_extract_page =>
    let rep := (pdf_extract_page inputPath pageNumber outputPath w).1
    let w1 := (pdf_extract_page inputPath pageNumber outputPath w).2
    let t1 := [Event.call (Call.pdf_extract_page inputPath pageNumber outputPath) rep.error_message]
    match free_if_set s rep.error_message w1 with
    | none => ⟨none, w1, t1⟩
    | some (w2, t2) => ⟨some rep.succeeded, w2, t1 ++ t2⟩

/-- JNI export Java_com_example_smart_1pdf_SpdfcorePlugin_nativeSplitAtPage
(lines 450-484). -/
def nativeSplitAtPage {W : Type} (s : State W) (inputPath : String) (splitPage : Int)
    (outputPrefix : String) (w : W) : Run W Bool :=
  match s.pdf_split_at_page_ptr with
  | none => ⟨some false, w, []⟩
  | some pdf_split_at_page =>
    let rep := (pdf_split_at_page inputPath splitPage outputPrefix w).1
    let w1 := (pdf_split_at_page inputPath splitPage outputPrefix w).2
    let t1 := [Event.call (Call.pdf_split_at_page inputPath splitPage outputPrefix) rep.error_message]
    match free_if_set s rep.error_message w1 with
    | none => ⟨none, w1, t1⟩
    | some (w2, t2) => ⟨some rep.succeeded, w2, t1 ++ t2⟩

/-- Outcome of nativeGetVersion: the string handed to `NewStringUTF`, the
globals after the load it runs, the provider world afterwards, and the loader
actions and provider calls performed, in order. -/
structure VersionRun (W : Type) where
  ret : String
  state : State W
  world : W
  trace : List Event

/-- JNI export Java_com_example_smart_1pdf_SpdfcorePlugin_nativeGetVersion
(lines 486-508).  `provider` is what the loader finds if the load has to open
the module. -/
def nativeGetVersion {W : Type} (provider : Provider W) (s : State W) (w : W) : VersionRun W :=
  let r := init_spdfcore_ffi provider s
  if !r.ret then ⟨"unknown", r.state, w, r.trace⟩
  else
    match r.state.spdfcore_version_ptr with
    | none => ⟨"1.0.0", r.state, w, r.trace⟩
    | some spdfcore_version =>
      let version := (spdfcore_version w).1
      let w1 := (spdfcore_version w).2
      let t1 := r.trace ++ [Event.call Call.spdfcore_version none]
      match version with
      | some str => ⟨str, r.state, w1, t1⟩
      | none => ⟨"unknown", r.state, w1, t1⟩

/-! ## Observations on traces -/

/-- Tells whether the event is the invocation of a provider entry point. -/
def Event.isCall : Event → Bool
  | Event.call _ _ => true
  | _ => false

/-- The provider entry points invoked in a trace, in order. -/
def providerCalls (t : List Event) : List Call :=
  t.filterMap (fun e => match e with
    | Event.call c _ => some c
    | _ => none)

/-- Tells whether the call is an invocation of `pdf_merge_files`. -/
def Call.isMerge : Call → Bool
  | Call.pdf_merge_files _ _ _ => true
  | _ => false

/-- The invocations of `pdf_merge_files` in a trace, with their arguments, in
order. -/
def mergeCalls (t : List Event) : List Call :=
  (providerCalls t).filter Call.isMerge

/-- The diagnostic messages written by the provider calls of a trace, in order. -/
def messagesWritten (t : List Event) : List String :=
  t.filterMap (fun e => match e with
    | Event.call _ (some msg) => some msg
    | _ => none)

/-- The strings passed to `free_c_string_ptr` in a trace, in order. -/
def messagesReleased (t : List Event) : List String :=
  t.filterMap (fun e => match e with
    | Event.free_c_string msg => some msg
    | _ => none)


/-! ## Vocabulary of the specification -/

/-- The provider build exports the four mandatory symbols `pdf_merge_files`,
`pdf_validate`, `pdf_get_page_count` and `free_c_string`. -/
def Module.hasMandatory {W : Type} (m : Module W) : Bool :=
  m.pdf_merge_files.isSome && m.pdf_validate.isSome && m.pdf_get_page_count.isSome &&
    m.free_c_string.isSome

/-- The names of the nine symbols looked up by `init_spdfcore_ffi`. -/
def symbolNames : List String :=
  ["pdf_merge_files", "pdf_validate", "pdf_get_page_count", "free_c_string",
   "pdf_get_file_size", "pdf_split_by_pages", "pdf_extract_page", "pdf_split_at_page",
   "spdfcore_version"]

/-- Number of `dlopen` calls in a trace (successful or not). -/
def dlopenCount (t : List Event) : Nat :=
  (t.filter (fun e => match e with
    | Event.dlopen _ => true
    | _ => false)).length

/-- Number of `dlclose` calls in a trace. -/
def dlcloseCount (t : List Event) : Nat :=
  (t.filter (fun e => match e with
    | Event.dlclose => true
    | _ => false)).length

/-- Number of `dlsym` lookups of the symbol `name` in a trace. -/
def dlsymCount (name : String) (t : List Event) : Nat :=
  (t.filter (fun e => match e with
    | Event.dlsym symbol _ => symbol == name
    | _ => false)).length

/-- N consecutive calls of `init_spdfcore_ffi` against the same provider: the
returned values in call order, the globals after the last call, and the loader
actions of all the calls. -/
def initCalls {W : Type} (provider : Provider W) : Nat → State W → List Bool × State W × List Event
  | 0, s => ([], s, [])
  | n + 1, s =>
    let r := init_spdfcore_ffi provider s
    let rest := initCalls provider n r.state
    (r.ret :: rest.1, rest.2.1, r.trace ++ rest.2.2)

/-- The states of the globals that can arise: `init_spdfcore_ffi` is the only
function that writes them, so these are the states obtained from the static
initialisers by any sequence of calls of it, each against whatever provider
the loader finds at that moment. -/
inductive Reachable {W : Type} : State W → Prop where
  | initial : Reachable (State.initial W)
  | init (p : Provider W) (s : State W) :
      Reachable s → Reachable (init_spdfcore_ffi p s).state

/-! ## Concrete providers used as inputs -/

/-- Reply of a call that succeeded and wrote no message. -/
def Reply.ok {α : Type} (a : α) : Reply α := ⟨true, a, PdfErrorCode.Success, none⟩

/-- A provider build that exports `pdf_merge_files` but none of the other
symbols (so the mandatory `pdf_validate` is missing). -/
def mergeOnlyModule : Module Unit :=
  { pdf_merge_files := some (fun _ _ _ w => (Reply.ok (), w))
    pdf_validate := none
    pdf_get_page_count := none
    free_c_string := none
    pdf_get_file_size := none
    pdf_split_by_pages := none
    pdf_extract_page := none
    pdf_split_at_page := none
    spdfcore_version := none }

/-- A provider build that exports exactly the four mandatory symbols; every
call succeeds, validation says "valid", every document has 3 pages. -/
def mandatoryModule : Module Unit :=
  { pdf_merge_files := some (fun _ _ _ w => (Reply.ok (), w))
    pdf_validate := some (fun _ w => (Reply.ok true, w))
    pdf_get_page_count := some (fun _ w => (Reply.ok 3, w))
    free_c_string := some (fun _ w => w)
    pdf_get_file_size := none
    pdf_split_by_pages := none
    pdf_extract_page := none
    pdf_split_at_page := none
    spdfcore_version := none }

/-- A provider build in which every entry point answers with a fixed reply,
whatever its arguments; `size`, `extract` and `split` are optional exports.
`pdf_split_by_pages` and `spdfcore_version` are not exported. -/
def constModule (merge : Reply Unit) (validate : Reply Bool) (pages : Reply Int)
    (size : Option (Reply Nat)) (extract split : Option (Reply Unit)) : Module Unit :=
  { pdf_merge_files := some (fun _ _ _ w => (merge, w))
    pdf_validate := some (fun _ w => (validate, w))
    pdf_get_page_count := some (fun _ w => (pages, w))
    free_c_string := some (fun _ w => w)
    pdf_get_file_size := size.map (fun rep => fun _ w => (rep, w))
    pdf_split_by_pages := none
    pdf_extract_page := extract.map (fun rep => fun _ _ _ w => (rep, w))
    pdf_split_at_page := split.map (fun rep => fun _ _ _ w => (rep, w))
    spdfcore_version := none }

/-- A full build with boundary-contract violations: the file-producing calls
return true together with the code InvalidPdf and a message, and the validate
call fails while setting the validity flag. -/
def anomalousModule : Module Unit :=
  constModule ⟨true, (), PdfErrorCode.InvalidPdf, some "not a pdf"⟩
    ⟨false, true, PdfErrorCode.InvalidPdf, some "not a pdf"⟩ (Reply.ok 3) (some (Reply.ok 10))
    (some ⟨true, (), PdfErrorCode.InvalidPdf, some "not a pdf"⟩)
    (some ⟨true, (), PdfErrorCode.InvalidPdf, some "not a pdf"⟩)

/-- A full build whose size query succeeds and reports the largest uint64_t. -/
def hugeSizeModule : Module Unit :=
  constModule (Reply.ok ()) (Reply.ok true) (Reply.ok 3) (some (Reply.ok (2 ^ 64 - 1)))
    (some (Reply.ok ())) (some (Reply.ok ()))

/-- A full build whose page-count query succeeds and writes -1 to `*page_count`. -/
def negativePagesModule : Module Unit :=
  constModule (Reply.ok ()) (Reply.ok true) (Reply.ok (-1)) (some (Reply.ok 10))
    (some (Reply.ok ())) (some (Reply.ok ()))

/-- A build whose size query always succeeds and always writes a diagnostic
message.  The provider world counts the size queries answered so far, and the
k-th query (from 0) writes the message "m" followed by k. -/
def chattySizeModule : Module Nat :=
  { pdf_merge_files := some (fun _ _ _ w => (Reply.ok (), w))
    pdf_validate := some (fun _ w => (Reply.ok true, w))
    pdf_get_page_count := some (fun _ w => (Reply.ok 3, w))
    free_c_string := some (fun _ w => w)
    pdf_get_file_size := some (fun _ k =>
      (⟨true, 10, PdfErrorCode.Success, some (["m0", "m1", "m2"].getD k "m")⟩, k + 1))
    pdf_split_by_pages := none
    pdf_extract_page := none
    pdf_split_at_page := none
    spdfcore_version := none }

/-- A provider build that exports `pdf_merge_files`, `pdf_validate` and
`pdf_get_page_count` but not `free_c_string` (so the load fails at the fourth
mandatory symbol). -/
def noReleaseModule : Module Unit :=
  { pdf_merge_files := some (fun _ _ _ w => (Reply.ok (), w))
    pdf_validate := some (fun _ w => (Reply.ok true, w))
    pdf_get_page_count := some (fun _ w => (Reply.ok 3, w))
    free_c_string := none
    pdf_get_file_size := none
    pdf_split_by_pages := none
    pdf_extract_page := none
    pdf_split_at_page := none
    spdfcore_version := none }

/-- A build with the four mandatory symbols and `spdfcore_version`, which
answers `version` (`none` for a null pointer). -/
def versionModule (version : Option String) : Module Unit :=
  { pdf_merge_files := some (fun _ _ _ w => (Reply.ok (), w))
    pdf_validate := some (fun _ w => (Reply.ok true, w))
    pdf_get_page_count := some (fun _ w => (Reply.ok 3, w))
    free_c_string := some (fun _ w => w)
    pdf_get_file_size := none
    pdf_split_by_pages := none
    pdf_extract_page := none
    pdf_split_at_page := none
    spdfcore_version := some (fun w => (version, w)) }

/-! ## The load sequence -/

section Load
variable {W : Type}

theorem init_of_loaded (p : Provider W) (s : State W)
    (h : s.spdfcore_ffi_handle ≠ none) : init_spdfcore_ffi p s = ⟨true, s, []⟩ := by
  unfold init_spdfcore_ffi
  cases hs : s.spdfcore_ffi_handle with
  | none => exact absurd hs h
  | some m0 => rfl

theorem init_of_mandatory (s : State W) (m : Module W)
    (h : s.spdfcore_ffi_handle = none) (hm : m.hasMandatory = true) :
    init_spdfcore_ffi (some m) s =
      ⟨true,
       ⟨m.pdf_merge_files, m.pdf_validate, m.pdf_get_page_count, m.pdf_get_file_size,
        m.pdf_split_by_pages, m.pdf_extract_page, m.pdf_split_at_page, m.spdfcore_version,
        m.free_c_string, some m⟩,
       [Event.dlopen true,
        Event.dlsym "pdf_merge_files" true,
        Event.dlsym "pdf_validate" true,
        Event.dlsym "pdf_get_page_count" true,
        Event.dlsym "free_c_string" true,
        Event.dlsym "pdf_get_file_size" m.pdf_get_file_size.isSome,
        Event.dlsym "pdf_split_by_pages" m.pdf_split_by_pages.isSome,
        Event.dlsym "pdf_extract_page" m.pdf_extract_page.isSome,
        Event.dlsym "pdf_split_at_page" m.pdf_split_at_page.isSome,
        Event.dlsym "spdfcore_version" m.spdfcore_version.isSome]⟩ := by
  obtain ⟨a, b, c, d, e, f, g, i, j⟩ := m
  simp only [Module.hasMandatory, Bool.and_eq_true, Option.isSome_iff_exists] at hm
  obtain ⟨⟨⟨⟨a, rfl⟩, ⟨b, rfl⟩⟩, ⟨c, rfl⟩⟩, ⟨d, rfl⟩⟩ := hm
  unfold init_spdfcore_ffi
  simp [h]

theorem init_failed (p : Provider W) (s : State W)
    (hfail : (init_spdfcore_ffi p s).ret = false) :
    (init_spdfcore_ffi p s).state.spdfcore_ffi_handle = none ∧
    (init_spdfcore_ffi p s).trace.head? = some (Event.dlopen p.isSome) ∧
    dlopenCount (init_spdfcore_ffi p s).trace = 1 ∧
    dlcloseCount (init_spdfcore_ffi p s).trace = (if p.isSome then 1 else 0) := by
  cases hs : s.spdfcore_ffi_handle with
  | some m0 =>
    rw [init_of_loaded p s (by simp [hs])] at hfail
    simp at hfail
  | none =>
    cases p with
    | none => simp [init_spdfcore_ffi, hs, dlopenCount, dlcloseCount]
    | some m =>
      obtain ⟨a, b, c, d, e, f, g, i, j⟩ := m
      cases a <;> cases b <;> cases c <;> cases d <;>
        simp_all [init_spdfcore_ffi, dlopenCount, dlcloseCount, List.filter]

theorem mandatory_of_init (m : Module W) (s : State W) (hs : s.spdfcore_ffi_handle = none)
    (hload : (init_spdfcore_ffi (some m) s).ret = true) : m.hasMandatory = true := by
  obtain ⟨a, b, c, d, e, f, g, i, j⟩ := m
  cases a <;> cases b <;> cases c <;> cases d <;>
    simp_all [init_spdfcore_ffi, Module.hasMandatory]

/-- In every reachable state with a handle, the four mandatory entry points
are resolved. -/
theorem loaded_has_mandatory (s : State W) (hr : Reachable s)
    (hh : s.spdfcore_ffi_handle ≠ none) :
    s.pdf_merge_files_ptr ≠ none ∧ s.pdf_validate_ptr ≠ none ∧
    s.pdf_get_page_count_ptr ≠ none ∧ s.free_c_string_ptr ≠ none := by
  induction hr with
  | initial => exact absurd rfl hh
  | init p s _ ih =>
    cases hs : s.spdfcore_ffi_handle with
    | some m0 =>
      have hne : s.spdfcore_ffi_handle ≠ none := by simp [hs]
      rw [init_of_loaded p s hne] at hh ⊢
      exact ih hne
    | none =>
      cases hret : (init_spdfcore_ffi p s).ret with
      | false => exact absurd (init_failed p s hret).1 hh
      | true =>
        cases p with
        | none => simp [init_spdfcore_ffi, hs] at hret
        | some m =>
          have hm := mandatory_of_init m s hs hret
          rw [init_of_mandatory s m hs hm]
          simp only [Module.hasMandatory, Bool.and_eq_true, Option.isSome_iff_exists] at hm
          obtain ⟨⟨⟨⟨a, ha⟩, ⟨b, hb⟩⟩, ⟨c, hc⟩⟩, ⟨d, hd⟩⟩ := hm
          simp [ha, hb, hc, hd]

theorem initCalls_of_loaded (p : Provider W) (n : Nat) (s : State W)
    (h : s.spdfcore_ffi_handle ≠ none) :
    initCalls p n s = (List.replicate n true, s, []) := by
  induction n with
  | zero => rfl
  | succ k ih => simp [initCalls, init_of_loaded p s h, ih, List.replicate_succ]

/-- C1 (the code departs from the claim): a provider build that exports
`pdf_merge_files` but lacks the mandatory `pdf_validate` makes
`init_spdfcore_ffi` return false and clear the handle, yet
`pdf_merge_files_ptr` keeps the entry point resolved before the failure.  The
null check of nativeMergeFiles therefore passes, and the operation invokes the
provider entry point and reports success. -/
theorem C1_stale_entry_point_after_failed_load :
    mergeOnlyModule.pdf_validate.isNone = true ∧
    (init_spdfcore_ffi (some mergeOnlyModule) (State.initial Unit)).ret = false ∧
    (init_spdfcore_ffi (some mergeOnlyModule)
      (State.initial Unit)).state.spdfcore_ffi_handle.isNone = true ∧
    (init_spdfcore_ffi (some mergeOnlyModule)
      (State.initial Unit)).state.pdf_merge_files_ptr.isSome = true ∧
    (nativeMergeFiles (init_spdfcore_ffi (some mergeOnlyModule) (State.initial Unit)).state
      ["a.pdf"] "out.pdf" ()).ret = some true ∧
    providerCalls (nativeMergeFiles
      (init_spdfcore_ffi (some mergeOnlyModule) (State.initial Unit)).state
      ["a.pdf"] "out.pdf" ()).trace = [Call.pdf_merge_files ["a.pdf"] 1 "out.pdf"] := by
  decide

/-- C3: load idempotence.  Starting with no handle, N >= 1 consecutive calls of
`init_spdfcore_ffi` against a provider that opens and exports the four
mandatory symbols all return true; together they call `dlopen` exactly once
and look up each of the nine symbols exactly once (the N calls perform exactly
the loader actions of the first one), and the globals after the N calls are
those left by the first call.  A call made when a handle already exists
returns true, performs no loader action and leaves every global unchanged. -/
theorem C3_load_idempotent (m : Module W) (s : State W) (N : Nat)
    (hN : 1 ≤ N) (hs : s.spdfcore_ffi_handle = none) (hm : m.hasMandatory = true) :
    (initCalls (some m) N s).1 = List.replicate N true ∧
    dlopenCount (initCalls (some m) N s).2.2 = 1 ∧
    (∀ name ∈ symbolNames, dlsymCount name (initCalls (some m) N s).2.2 = 1) ∧
    (initCalls (some m) N s).2.2 = (init_spdfcore_ffi (some m) s).trace ∧
    (initCalls (some m) N s).2.1 = (init_spdfcore_ffi (some m) s).state ∧
    (∀ (p : Provider W) (t : State W), t.spdfcore_ffi_handle ≠ none →
      init_spdfcore_ffi p t = ⟨true, t, []⟩) := by
  obtain ⟨k, rfl⟩ : ∃ k, N = k + 1 := ⟨N - 1, by omega⟩
  have h1 := init_of_mandatory s m hs hm
  have h2 := initCalls_of_loaded (some m) k (init_spdfcore_ffi (some m) s).state
    (by rw [h1]; simp)
  refine ⟨?_, ?_, ?_, ?_, ?_, fun p t ht => init_of_loaded p t ht⟩
  · simp only [initCalls, h2]; rw [h1]; simp [List.replicate_succ]
  · simp only [initCalls, h2]; rw [h1]; simp [dlopenCount, List.filter]
  · intro name hname
    simp only [initCalls, h2]; rw [h1]
    simp only [symbolNames, List.mem_cons, List.mem_singleton, List.not_mem_nil,
      or_false] at hname
    rcases hname with h | h | h | h | h | h | h | h | h <;> subst h <;>
      simp [dlsymCount, List.filter]
  · simp only [initCalls, h2]; simp
  · simp only [initCalls, h2]

theorem C3_load_idempotent_witness :
    (initCalls (some mandatoryModule) 3 (State.initial Unit)).1 = [true, true, true] ∧
    dlopenCount (initCalls (some mandatoryModule) 3 (State.initial Unit)).2.2 = 1 :=
  ⟨(C3_load_idempotent mandatoryModule (State.initial Unit) 3 (by decide) rfl rfl).1,
   (C3_load_idempotent mandatoryModule (State.initial Unit) 3 (by decide) rfl rfl).2.1⟩

/-- C10: rollback and retry.  Whenever a call of `init_spdfcore_ffi` returns
false (the module could not be opened, or it opened and a mandatory symbol was
missing), the stored handle is empty afterwards; the attempt called `dlopen`
exactly once, first, and called `dlclose` exactly once when the module had
opened and not at all when it had not.  The next call against any provider that
opens and exports the four mandatory symbols starts with a fresh `dlopen`,
returns true and stores the new handle: the failure is not cached. -/
theorem C10_rollback_and_retry (p : Provider W) (s : State W)
    (hfail : (init_spdfcore_ffi p s).ret = false) :
    (init_spdfcore_ffi p s).state.spdfcore_ffi_handle = none ∧
    (init_spdfcore_ffi p s).trace.head? = some (Event.dlopen p.isSome) ∧
    dlopenCount (init_spdfcore_ffi p s).trace = 1 ∧
    dlcloseCount (init_spdfcore_ffi p s).trace = (if p.isSome then 1 else 0) ∧
    (∀ m : Module W, m.hasMandatory = true →
      (init_spdfcore_ffi (some m) (init_spdfcore_ffi p s).state).ret = true ∧
      (init_spdfcore_ffi (some m) (init_spdfcore_ffi p s).state).trace.head?
        = some (Event.dlopen true) ∧
      dlopenCount (init_spdfcore_ffi (some m) (init_spdfcore_ffi p s).state).trace = 1 ∧
      (init_spdfcore_ffi (some m) (init_spdfcore_ffi p s).state).state.spdfcore_ffi_handle
        = some m) := by
  obtain ⟨h1, h2, h3, h4⟩ := init_failed p s hfail
  refine ⟨h1, h2, h3, h4, fun m hm => ?_⟩
  rw [init_of_mandatory _ m h1 hm]
  simp [dlopenCount, List.filter]

theorem C10_rollback_and_retry_witness :
    (init_spdfcore_ffi (some mergeOnlyModule) (State.initial Unit)).ret = false ∧
    (init_spdfcore_ffi (some mandatoryModule)
      (init_spdfcore_ffi (some mergeOnlyModule) (State.initial Unit)).state).ret = true :=
  ⟨by decide, ((C10_rollback_and_retry (some mergeOnlyModule) (State.initial Unit)
      (by decide)).2.2.2.2 mandatoryModule (by decide)).1⟩

end Load



/-! ## The facade operations -/

section Facade
variable {W : Type}

theorem free_if_set_of_free (s : State W) (free : free_c_string_func W)
    (hfree : s.free_c_string_ptr = some free) (msg : Option String) (w : W) :
    free_if_set s msg w =
      some (match msg with
        | none => (w, [])
        | some str => (free str w, [Event.free_c_string str])) := by
  cases msg <;> simp [free_if_set, call_free_c_string, hfree]

theorem jstringArrayToVector_eq (jarray : List String) : jstringArrayToVector jarray = jarray := by
  have h : ∀ (l acc : List String),
      l.foldl (fun result str => result ++ [str]) acc = acc ++ l := by
    intro l
    induction l with
    | nil => intro acc; simp
    | cons x xs ih => intro acc; simp [ih]
  simpa [jstringArrayToVector] using h jarray []

theorem mergeInputLoop_ret (s : State W) (free : free_c_string_func W)
    (hfree : s.free_c_string_ptr = some free) (paths : List String) (w : W) :
    (mergeInputLoop s paths w).ret = some paths := by
  induction paths generalizing w with
  | nil => rfl
  | cons path rest ih =>
    unfold mergeInputLoop
    cases hsz : s.pdf_get_file_size_ptr with
    | none => simp [ih]
    | some g =>
      simp only
      split_ifs with hok
      · simp [ih]
      · rw [free_if_set_of_free s free hfree]
        simp [ih]

theorem mergeTotalLoop_ret (s : State W) (free : free_c_string_func W)
    (hfree : s.free_c_string_ptr = some free) (g : pdf_get_file_size_func W)
    (paths : List String) (total : Nat) (w : W) :
    (mergeTotalLoop s g paths total w).ret.isSome = true := by
  induction paths generalizing total w with
  | nil => rfl
  | cons path rest ih =>
    unfold mergeTotalLoop
    simp only
    rw [free_if_set_of_free s free hfree]
    simp [ih]

theorem mergeOutputVerification_ret (s : State W) (free : free_c_string_func W)
    (hfree : s.free_c_string_ptr = some free) (paths : List String) (out : String)
    (merge : Reply Unit) (w : W) :
    (mergeOutputVerification s paths out merge w).ret = some () := by
  unfold mergeOutputVerification
  cases hsz : s.pdf_get_file_size_ptr with
  | none => rfl
  | some g =>
    simp only
    split_ifs with h1 h2
    · have := mergeTotalLoop_ret s free hfree g paths 0 ((g out w).2)
      cases hr : (mergeTotalLoop s g paths 0 ((g out w).2)).ret with
      | none => simp [hr] at this
      | some v => simp
    · rw [free_if_set_of_free s free hfree]
    · rfl

theorem nativeMergeFiles_ret (s : State W) (f : pdf_merge_files_func W)
    (free : free_c_string_func W) (hf : s.pdf_merge_files_ptr = some f)
    (hfree : s.free_c_string_ptr = some free) (inputPaths : List String)
    (outputPath : String) (w : W) :
    (nativeMergeFiles s inputPaths outputPath w).ret =
      some (f inputPaths inputPaths.length outputPath
        (mergeInputLoop s inputPaths w).world).1.succeeded := by
  unfold nativeMergeFiles
  simp only [hf, jstringArrayToVector_eq, mergeInputLoop_ret s free hfree]
  rw [free_if_set_of_free s free hfree]
  simp only [mergeOutputVerification_ret s free hfree]

theorem nativeExtractPage_ret (s : State W) (f : pdf_extract_page_func W)
    (free : free_c_string_func W) (hf : s.pdf_extract_page_ptr = some f)
    (hfree : s.free_c_string_ptr = some free) (inputPath : String) (pageNumber : Int)
    (outputPath : String) (w : W) :
    (nativeExtractPage s inputPath pageNumber outputPath w).ret =
      some (f inputPath pageNumber outputPath w).1.succeeded := by
  unfold nativeExtractPage
  simp only [hf]
  rw [free_if_set_of_free s free hfree]

theorem nativeSplitAtPage_ret (s : State W) (f : pdf_split_at_page_func W)
    (free : free_c_string_func W) (hf : s.pdf_split_at_page_ptr = some f)
    (hfree : s.free_c_string_ptr = some free) (inputPath : String) (splitPage : Int)
    (outputPrefix : String) (w : W) :
    (nativeSplitAtPage s inputPath splitPage outputPrefix w).ret =
      some (f inputPath splitPage outputPrefix w).1.succeeded := by
  unfold nativeSplitAtPage
  simp only [hf]
  rw [free_if_set_of_free s free hfree]

theorem nativeValidateFile_ret (s : State W) (f : pdf_validate_func W)
    (free : free_c_string_func W) (hf : s.pdf_validate_ptr = some f)
    (hfree : s.free_c_string_ptr = some free) (filePath : String) (file_opens : Bool) (w : W) :
    (nativeValidateFile s filePath file_opens w).ret =
      some (file_opens && ((f filePath w).1.result && (f filePath w).1.out &&
        ((f filePath w).1.error_code == PdfErrorCode.Success))) := by
  unfold nativeValidateFile
  simp only [hf]
  cases file_opens
  · simp
  · simp only [Bool.not_true, Bool.false_eq_true, if_false, Bool.true_and]
    rw [free_if_set_of_free s free hfree]

theorem nativeGetPageCount_ret (s : State W) (f : pdf_get_page_count_func W)
    (free : free_c_string_func W) (hf : s.pdf_get_page_count_ptr = some f)
    (hfree : s.free_c_string_ptr = some free) (filePath : String) (w : W) :
    (nativeGetPageCount s filePath w).ret =
      some (if (f filePath w).1.succeeded then (f filePath w).1.out else -1) := by
  unfold nativeGetPageCount
  simp only [hf]
  rw [free_if_set_of_free s free hfree]
  simp only
  split_ifs <;> rfl

theorem nativeGetFileSize_ret (s : State W) (f : pdf_get_file_size_func W)
    (free : free_c_string_func W) (hf : s.pdf_get_file_size_ptr = some f)
    (hfree : s.free_c_string_ptr = some free) (filePath : String) (w : W) :
    (nativeGetFileSize s filePath w).ret =
      some (if (f filePath w).1.succeeded then jlong_of_uint64 (f filePath w).1.out else -1) := by
  unfold nativeGetFileSize
  simp only [hf]
  rw [free_if_set_of_free s free hfree]
  simp only
  split_ifs <;> rfl

theorem succeeded_iff {α : Type} (rep : Reply α) :
    rep.succeeded = true ↔ rep.result = true ∧ rep.error_code = PdfErrorCode.Success := by
  simp [Reply.succeeded]

theorem some_true_iff (b : Bool) (P : Prop) (h : b = true ↔ P) :
    ((some b = some true) ↔ P) ∧ ((some b = some false) ↔ ¬ P) := by
  cases b <;> simp_all

/-- C4: success definition.  In every state in which `free_c_string_ptr` is
resolved (every loaded state, by `loaded_has_mandatory`), and for each of
nativeMergeFiles, nativeExtractPage and
nativeSplitAtPage whose backing entry point is present: with `rep` the reply of
the provider call the operation makes (returned boolean, code, message), the
operation returns true if and only if `rep.result` is true and `rep.error_code`
is Success, and returns false otherwise; in particular a reply of true with a
non-Success code is reported as false.  The merge call is made in the provider
world left by the input probes of `mergeInputLoop`. -/
theorem C4_success_definition (s : State W) (free : free_c_string_func W)
    (hfree : s.free_c_string_ptr = some free) (w : W) :
    (∀ (f : pdf_merge_files_func W) (inputPaths : List String) (outputPath : String),
      s.pdf_merge_files_ptr = some f →
      ∀ rep : Reply Unit,
        rep = (f inputPaths inputPaths.length outputPath
          (mergeInputLoop s inputPaths w).world).1 →
        ((nativeMergeFiles s inputPaths outputPath w).ret = some true ↔
          (rep.result = true ∧ rep.error_code = PdfErrorCode.Success)) ∧
        ((nativeMergeFiles s inputPaths outputPath w).ret = some false ↔
          ¬ (rep.result = true ∧ rep.error_code = PdfErrorCode.Success))) ∧
    (∀ (f : pdf_extract_page_func W) (inputPath : String) (pageNumber : Int)
      (outputPath : String), s.pdf_extract_page_ptr = some f →
      ∀ rep : Reply Unit, rep = (f inputPath pageNumber outputPath w).1 →
        ((nativeExtractPage s inputPath pageNumber outputPath w).ret = some true ↔
          (rep.result = true ∧ rep.error_code = PdfErrorCode.Success)) ∧
        ((nativeExtractPage s inputPath pageNumber outputPath w).ret = some false ↔
          ¬ (rep.result = true ∧ rep.error_code = PdfErrorCode.Success))) ∧
    (∀ (f : pdf_split_at_page_func W) (inputPath : String) (splitPage : Int)
      (outputPrefix : String), s.pdf_split_at_page_ptr = some f →
      ∀ rep : Reply Unit, rep = (f inputPath splitPage outputPrefix w).1 →
        ((nativeSplitAtPage s inputPath splitPage outputPrefix w).ret = some true ↔
          (rep.result = true ∧ rep.error_code = PdfErrorCode.Success)) ∧
        ((nativeSplitAtPage s inputPath splitPage outputPrefix w).ret = some false ↔
          ¬ (rep.result = true ∧ rep.error_code = PdfErrorCode.Success))) := by
  refine ⟨?_, ?_, ?_⟩
  · intro f inputPaths outputPath hf rep hrep
    rw [nativeMergeFiles_ret s f free hf hfree, ← hrep]
    exact some_true_iff _ _ (succeeded_iff rep)
  · intro f inputPath pageNumber outputPath hf rep hrep
    rw [nativeExtractPage_ret s f free hf hfree, ← hrep]
    exact some_true_iff _ _ (succeeded_iff rep)
  · intro f inputPath splitPage outputPrefix hf rep hrep
    rw [nativeSplitAtPage_ret s f free hf hfree, ← hrep]
    exact some_true_iff _ _ (succeeded_iff rep)


theorem C4_success_definition_witness :
    (nativeMergeFiles (init_spdfcore_ffi (some anomalousModule) (State.initial Unit)).state
      ["a.pdf", "b.pdf"] "out.pdf" ()).ret = some false ∧
    (nativeExtractPage (init_spdfcore_ffi (some anomalousModule) (State.initial Unit)).state
      "a.pdf" 1 "out.pdf" ()).ret = some false ∧
    (nativeSplitAtPage (init_spdfcore_ffi (some anomalousModule) (State.initial Unit)).state
      "a.pdf" 1 "out" ()).ret = some false :=
  have h := C4_success_definition
    (init_spdfcore_ffi (some anomalousModule) (State.initial Unit)).state (fun _ w => w) rfl ()
  ⟨((h.1 _ ["a.pdf", "b.pdf"] "out.pdf" rfl _ rfl).2).2 (by decide),
   ((h.2.1 _ "a.pdf" 1 "out.pdf" rfl _ rfl).2).2 (by decide),
   ((h.2.2 _ "a.pdf" 1 "out" rfl _ rfl).2).2 (by decide)⟩

/-- C5: validate outcome consistency.  With `pdf_validate_ptr` and
`free_c_string_ptr` resolved (every loaded state, by `loaded_has_mandatory`),
and `rep` the reply the provider gives for the path: nativeValidateFile returns true only when the call succeeded
(`rep.result` true and code Success) and the validity flag `rep.out` is true;
a successful call with validity false returns false; a failed call returns
false whatever the validity flag.  Conversely, when the file can be opened, a
successful call with validity true returns true. -/
theorem C5_validate_outcome (s : State W) (f : pdf_validate_func W)
    (free : free_c_string_func W) (hf : s.pdf_validate_ptr = some f)
    (hfree : s.free_c_string_ptr = some free) (filePath : String) (file_opens : Bool) (w : W)
    (rep : Reply Bool) (hrep : rep = (f filePath w).1) :
    ((nativeValidateFile s filePath file_opens w).ret = some true →
      (rep.result = true ∧ rep.error_code = PdfErrorCode.Success) ∧ rep.out = true) ∧
    (rep.result = true → rep.error_code = PdfErrorCode.Success → rep.out = false →
      (nativeValidateFile s filePath file_opens w).ret = some false) ∧
    (¬ (rep.result = true ∧ rep.error_code = PdfErrorCode.Success) →
      (nativeValidateFile s filePath file_opens w).ret = some false) ∧
    (file_opens = true → rep.result = true → rep.error_code = PdfErrorCode.Success →
      rep.out = true → (nativeValidateFile s filePath file_opens w).ret = some true) := by
  rw [nativeValidateFile_ret s f free hf hfree, ← hrep]
  obtain ⟨r, o, c, m⟩ := rep
  cases file_opens <;> cases r <;> cases o <;> cases c <;> simp

theorem C5_validate_outcome_witness :
    (nativeValidateFile (init_spdfcore_ffi (some anomalousModule) (State.initial Unit)).state
      "a.pdf" true ()).ret = some false :=
  (C5_validate_outcome (init_spdfcore_ffi (some anomalousModule) (State.initial Unit)).state
    _ (fun _ w => w) rfl rfl "a.pdf" true () _ rfl).2.2.1 (by decide)

/-- C6 (the claim fails on the code): with a loaded provider, nativeMergeFiles
called with an empty list of input paths is not rejected; it invokes
`pdf_merge_files` with an empty array and `path_count` 0 and returns true. -/
theorem C6_empty_list_reaches_provider :
    (nativeMergeFiles (init_spdfcore_ffi (some mandatoryModule) (State.initial Unit)).state
      [] "out.pdf" ()).ret = some true ∧
    providerCalls (nativeMergeFiles
      (init_spdfcore_ffi (some mandatoryModule) (State.initial Unit)).state
      [] "out.pdf" ()).trace = [Call.pdf_merge_files [] 0 "out.pdf"] := by
  decide

theorem mergeOutputVerification_nil_calls (s : State W) (free : free_c_string_func W)
    (hfree : s.free_c_string_ptr = some free) (out : String) (merge : Reply Unit) (w : W) :
    ∀ c ∈ providerCalls (mergeOutputVerification s [] out merge w).trace,
      c = Call.pdf_get_file_size out := by
  unfold mergeOutputVerification
  cases hsz : s.pdf_get_file_size_ptr with
  | none => simp [providerCalls]
  | some g =>
    simp only
    split_ifs with h1 h2
    · simp [providerCalls, mergeTotalLoop]
    · rw [free_if_set_of_free s free hfree]
      cases (g out w).1.error_message <;> simp [providerCalls]
    · simp [providerCalls]

/-- C6 as amended: nativeMergeFiles has no check of the list length.  With
`pdf_merge_files_ptr` and `free_c_string_ptr` resolved (every loaded state,
by `loaded_has_mandatory`), a call with an empty
list of input paths invokes `pdf_merge_files` first, with an empty array,
`path_count` 0 and the caller's output path, and returns true exactly when that
reply is true with code Success; every later provider call of the run is a
size probe of the output path. -/
theorem C6_empty_list_forwarded (s : State W) (f : pdf_merge_files_func W)
    (free : free_c_string_func W) (hf : s.pdf_merge_files_ptr = some f)
    (hfree : s.free_c_string_ptr = some free) (outputPath : String) (w : W) :
    (nativeMergeFiles s [] outputPath w).ret = some (f [] 0 outputPath w).1.succeeded ∧
    ∃ rest : List Event,
      (nativeMergeFiles s [] outputPath w).trace =
        Event.call (Call.pdf_merge_files [] 0 outputPath) (f [] 0 outputPath w).1.error_message
          :: rest ∧
      ∀ c ∈ providerCalls rest, c = Call.pdf_get_file_size outputPath := by
  constructor
  · rw [nativeMergeFiles_ret s f free hf hfree]; rfl
  · unfold nativeMergeFiles
    simp only [hf, jstringArrayToVector_eq, mergeInputLoop]
    rw [free_if_set_of_free s free hfree]
    simp only [mergeOutputVerification_ret s free hfree]
    refine ⟨_, by simp; rfl, ?_⟩
    intro c hc
    have hv := mergeOutputVerification_nil_calls s free hfree outputPath
      (f [] 0 outputPath w).1
    cases hm : (f [] 0 outputPath w).1.error_message with
    | none =>
      simp only [hm, providerCalls, List.nil_append] at hc
      exact hv _ c hc
    | some str =>
      simp only [hm, providerCalls] at hc
      simp at hc
      exact hv _ c (by simpa [providerCalls] using hc)

theorem C6_empty_list_forwarded_witness :
    (nativeMergeFiles (init_spdfcore_ffi (some anomalousModule) (State.initial Unit)).state
      [] "out.pdf" ()).ret = some false :=
  (C6_empty_list_forwarded (init_spdfcore_ffi (some anomalousModule) (State.initial Unit)).state
    _ (fun _ w => w) rfl rfl "out.pdf" ()).1

/-- C7: optional-capability degradation.  Let the load succeed from a state
with no handle, against the provider build `m`.  If `m` lacks
`pdf_get_file_size`, nativeGetFileSize returns -1; if it lacks
`pdf_extract_page`, nativeExtractPage returns false; if it lacks
`pdf_split_at_page`, nativeSplitAtPage returns false; each of them without any
provider call or release (empty trace, provider world unchanged).  Whatever
optional symbols are missing, nativeValidateFile (on a file that can be
opened) returns the success outcome of the provider's validate reply, and
nativeMergeFiles returns the success outcome of the provider's merge reply;
when `pdf_get_file_size` is missing the merge call is made in the caller's
provider world, since no probe precedes it. -/
theorem C7_optional_degradation (m : Module W) (s0 : State W)
    (hs0 : s0.spdfcore_ffi_handle = none)
    (hload : (init_spdfcore_ffi (some m) s0).ret = true) (w : W) :
    (m.pdf_get_file_size = none → ∀ filePath : String,
      nativeGetFileSize (init_spdfcore_ffi (some m) s0).state filePath w
        = ⟨some (-1), w, []⟩) ∧
    (m.pdf_extract_page = none → ∀ (inputPath : String) (pageNumber : Int) (outputPath : String),
      nativeExtractPage (init_spdfcore_ffi (some m) s0).state inputPath pageNumber outputPath w
        = ⟨some false, w, []⟩) ∧
    (m.pdf_split_at_page = none → ∀ (inputPath : String) (splitPage : Int)
      (outputPrefix : String),
      nativeSplitAtPage (init_spdfcore_ffi (some m) s0).state inputPath splitPage outputPrefix w
        = ⟨some false, w, []⟩) ∧
    (∃ pdf_validate : pdf_validate_func W, m.pdf_validate = some pdf_validate ∧
      ∀ filePath : String,
        (nativeValidateFile (init_spdfcore_ffi (some m) s0).state filePath true w).ret =
          some ((pdf_validate filePath w).1.result && (pdf_validate filePath w).1.out &&
            ((pdf_validate filePath w).1.error_code == PdfErrorCode.Success))) ∧
    (∃ pdf_merge_files : pdf_merge_files_func W, m.pdf_merge_files = some pdf_merge_files ∧
      ∀ (inputPaths : List String) (outputPath : String),
        (nativeMergeFiles (init_spdfcore_ffi (some m) s0).state inputPaths outputPath w).ret =
          some (pdf_merge_files inputPaths inputPaths.length outputPath
            (mergeInputLoop (init_spdfcore_ffi (some m) s0).state inputPaths w).world
            ).1.succeeded ∧
        (m.pdf_get_file_size = none →
          (nativeMergeFiles (init_spdfcore_ffi (some m) s0).state inputPaths outputPath w).ret =
            some (pdf_merge_files inputPaths inputPaths.length outputPath w).1.succeeded)) := by
  have hm := mandatory_of_init m s0 hs0 hload
  rw [init_of_mandatory s0 m hs0 hm]
  obtain ⟨a, b, c, d, e, f, g, i, j⟩ := m
  simp only [Module.hasMandatory, Bool.and_eq_true, Option.isSome_iff_exists] at hm
  obtain ⟨⟨⟨⟨fm, rfl⟩, ⟨fv, rfl⟩⟩, ⟨fp, rfl⟩⟩, ⟨free, rfl⟩⟩ := hm
  refine ⟨?_, ?_, ?_, ⟨fv, rfl, ?_⟩, ⟨fm, rfl, ?_⟩⟩
  · intro h filePath
    simp only at h
    subst h
    rfl
  · intro h inputPath pageNumber outputPath
    simp only at h
    subst h
    rfl
  · intro h inputPath splitPage outputPrefix
    simp only at h
    subst h
    rfl
  · intro filePath
    rw [nativeValidateFile_ret _ fv free rfl rfl]
    simp
  · intro inputPaths outputPath
    constructor
    · rw [nativeMergeFiles_ret _ fm free rfl rfl]
    · intro h
      simp only at h
      subst h
      rw [nativeMergeFiles_ret _ fm free rfl rfl]
      have hw : ∀ (l : List String) (w0 : W),
          (mergeInputLoop (W := W) ⟨some fm, some fv, some fp, none, f, g, i, j, some free,
            some ⟨some fm, some fv, some fp, some free, none, f, g, i, j⟩⟩ l w0).world = w0 := by
        intro l
        induction l with
        | nil => intro w0; rfl
        | cons x xs ih => intro w0; simp [mergeInputLoop, ih]
      rw [hw]

theorem C7_optional_degradation_witness :
    nativeGetFileSize (init_spdfcore_ffi (some mandatoryModule) (State.initial Unit)).state
      "a.pdf" () = ⟨some (-1), (), []⟩ ∧
    nativeExtractPage (init_spdfcore_ffi (some mandatoryModule) (State.initial Unit)).state
      "a.pdf" 1 "out.pdf" () = ⟨some false, (), []⟩ :=
  have h := C7_optional_degradation mandatoryModule (State.initial Unit) rfl (by decide) ()
  ⟨h.1 rfl "a.pdf", h.2.1 rfl "a.pdf" 1 "out.pdf"⟩

/-- C8 (the claim fails on the code): a size query that succeeds and reports
the unsigned 64-bit size 2^64 - 1 makes nativeGetFileSize return -1, which is
negative and differs from the size. -/
theorem C8_huge_size_returned_negative :
    hugeSizeModule.pdf_get_file_size.map
      (fun g => ((g "a.pdf" ()).1.succeeded, (g "a.pdf" ()).1.out))
      = some (true, 2 ^ 64 - 1) ∧
    (nativeGetFileSize (init_spdfcore_ffi (some hugeSizeModule) (State.initial Unit)).state
      "a.pdf" ()).ret = some (-1) := by
  decide

theorem jlong_of_uint64_small (n : Nat) (h : n < 2 ^ 63) : jlong_of_uint64 n = (n : Int) := by
  have h2 : n % 2 ^ 64 = n := Nat.mod_eq_of_lt (by omega)
  unfold jlong_of_uint64
  rw [h2, if_pos h]

theorem jlong_of_uint64_large (n : Nat) (h1 : 2 ^ 63 ≤ n) (h2 : n < 2 ^ 64) :
    jlong_of_uint64 n = (n : Int) - 2 ^ 64 := by
  have h3 : n % 2 ^ 64 = n := Nat.mod_eq_of_lt h2
  have h4 : ¬ n < 2 ^ 63 := by omega
  unfold jlong_of_uint64
  rw [h3, if_neg h4]

/-- C8 as amended: with `free_c_string_ptr` resolved (every loaded state, by
`loaded_has_mandatory`), nativeGetFileSize
returns -1 when `pdf_get_file_size_ptr` is null and when the provider call
fails.  When the call succeeds reporting the uint64_t size `rep.out`, the value
is that size reinterpreted as a signed 64-bit integer: `rep.out` itself when
it is below 2^63, and `rep.out - 2^64` when it is not.  Hence, for sizes
below 2^63, a returned value is negative only on failure. -/
theorem C8_file_size_result (s : State W) (free : free_c_string_func W)
    (hfree : s.free_c_string_ptr = some free) (filePath : String) (w : W) :
    (s.pdf_get_file_size_ptr = none → (nativeGetFileSize s filePath w).ret = some (-1)) ∧
    (∀ f : pdf_get_file_size_func W, s.pdf_get_file_size_ptr = some f →
      ∀ rep : Reply Nat, rep = (f filePath w).1 → rep.out < 2 ^ 64 →
        (rep.result = true → rep.error_code = PdfErrorCode.Success → rep.out < 2 ^ 63 →
          (nativeGetFileSize s filePath w).ret = some (rep.out : Int)) ∧
        (rep.result = true → rep.error_code = PdfErrorCode.Success → 2 ^ 63 ≤ rep.out →
          (nativeGetFileSize s filePath w).ret = some ((rep.out : Int) - 2 ^ 64)) ∧
        (¬ (rep.result = true ∧ rep.error_code = PdfErrorCode.Success) →
          (nativeGetFileSize s filePath w).ret = some (-1)) ∧
        (rep.out < 2 ^ 63 → ∀ v : Int, (nativeGetFileSize s filePath w).ret = some v → v < 0 →
          ¬ (rep.result = true ∧ rep.error_code = PdfErrorCode.Success))) := by
  constructor
  · intro h
    simp [nativeGetFileSize, h]
  · intro f hf rep hrep hrange
    rw [nativeGetFileSize_ret s f free hf hfree, ← hrep]
    refine ⟨?_, ?_, ?_, ?_⟩
    · intro hr hc hsmall
      rw [if_pos ((succeeded_iff rep).2 ⟨hr, hc⟩), jlong_of_uint64_small _ hsmall]
    · intro hr hc hlarge
      rw [if_pos ((succeeded_iff rep).2 ⟨hr, hc⟩), jlong_of_uint64_large _ hlarge hrange]
    · intro hfail
      rw [if_neg (fun h => hfail ((succeeded_iff rep).1 h))]
    · intro hsmall v hv hneg hok
      rw [if_pos ((succeeded_iff rep).2 hok), jlong_of_uint64_small _ hsmall] at hv
      have : (rep.out : Int) = v := Option.some.inj hv
      omega

theorem C8_file_size_result_witness :
    (nativeGetFileSize (init_spdfcore_ffi (some anomalousModule) (State.initial Unit)).state
      "a.pdf" ()).ret = some 10 :=
  ((C8_file_size_result (init_spdfcore_ffi (some anomalousModule) (State.initial Unit)).state
    (fun _ w => w) rfl "a.pdf" ()).2 _ rfl _ rfl (by decide)).1 rfl rfl (by decide)

/-- C9 (the claim fails on the code): a page-count query that succeeds and
writes -1 to `*page_count` makes nativeGetPageCount return -1 although the
operation succeeded. -/
theorem C9_negative_page_count_passed_through :
    negativePagesModule.pdf_get_page_count.map
      (fun g => ((g "a.pdf" ()).1.succeeded, (g "a.pdf" ()).1.out)) = some (true, -1) ∧
    (nativeGetPageCount (init_spdfcore_ffi (some negativePagesModule) (State.initial Unit)).state
      "a.pdf" ()).ret = some (-1) := by
  decide

/-- C9 as amended: in every state, the initial one included, nativeGetPageCount
returns -1 when `pdf_get_page_count_ptr` is null, without any provider call.
When the pointer is set and `free_c_string_ptr` is resolved (every loaded
state, by `loaded_has_mandatory`), with `rep` the provider reply, it returns
`rep.out` unchanged when `rep.result` is true and the code is Success, and -1
in every other case.  When the reported page count is non-negative, -1 is
returned if and only if the operation failed. -/
theorem C9_page_count_result (s : State W) (filePath : String) (w : W) :
    (s.pdf_get_page_count_ptr = none →
      nativeGetPageCount s filePath w = ⟨some (-1), w, []⟩) ∧
    (∀ (f : pdf_get_page_count_func W) (free : free_c_string_func W),
      s.pdf_get_page_count_ptr = some f → s.free_c_string_ptr = some free →
      ∀ rep : Reply Int, rep = (f filePath w).1 →
        (rep.result = true → rep.error_code = PdfErrorCode.Success →
          (nativeGetPageCount s filePath w).ret = some rep.out) ∧
        (¬ (rep.result = true ∧ rep.error_code = PdfErrorCode.Success) →
          (nativeGetPageCount s filePath w).ret = some (-1)) ∧
        (0 ≤ rep.out →
          ((nativeGetPageCount s filePath w).ret = some (-1) ↔
            ¬ (rep.result = true ∧ rep.error_code = PdfErrorCode.Success)))) := by
  constructor
  · intro h
    simp [nativeGetPageCount, h]
  · intro f free hf hfree rep hrep
    rw [nativeGetPageCount_ret s f free hf hfree, ← hrep]
    refine ⟨?_, ?_, ?_⟩
    · intro hr hc
      rw [if_pos ((succeeded_iff rep).2 ⟨hr, hc⟩)]
    · intro hfail
      rw [if_neg (fun h => hfail ((succeeded_iff rep).1 h))]
    · intro hnonneg
      by_cases hok : rep.succeeded = true
      · rw [if_pos hok]
        constructor
        · intro h
          have : rep.out = -1 := Option.some.inj h
          omega
        · intro h
          exact absurd ((succeeded_iff rep).1 hok) h
      · rw [if_neg hok]
        simp only [true_iff]
        exact fun h => hok ((succeeded_iff rep).2 h)

theorem C9_page_count_result_witness :
    nativeGetPageCount (State.initial Unit) "a.pdf" () = ⟨some (-1), (), []⟩ ∧
    (nativeGetPageCount (init_spdfcore_ffi (some mandatoryModule) (State.initial Unit)).state
      "a.pdf" ()).ret = some 3 ∧
    (nativeGetPageCount (init_spdfcore_ffi (some anomalousModule) (State.initial Unit)).state
      "a.pdf" ()).ret = some 3 :=
  ⟨(C9_page_count_result (State.initial Unit) "a.pdf" ()).1 rfl,
   ((C9_page_count_result (init_spdfcore_ffi (some mandatoryModule) (State.initial Unit)).state
      "a.pdf" ()).2 _ (fun _ w => w) rfl rfl _ rfl).1 rfl rfl,
   ((C9_page_count_result (init_spdfcore_ffi (some anomalousModule) (State.initial Unit)).state
      "a.pdf" ()).2 _ (fun _ w => w) rfl rfl _ rfl).1 rfl rfl⟩

/-- C2 (the code departs from the claim): nativeMergeFiles on one input
against a provider whose size query succeeds and writes a message on every
call.  Three size probes write the messages m0 (input probe of the first
loop), m1 (probe of the output) and m2 (second probe of the input); only m2
is passed to `free_c_string_ptr`.  The first loop and the output probe release
the message only in their failure branch. -/
theorem C2_merge_probe_messages_leak :
    messagesWritten (nativeMergeFiles
      (init_spdfcore_ffi (some chattySizeModule) (State.initial Nat)).state
      ["a.pdf"] "out.pdf" 0).trace = ["m0", "m1", "m2"] ∧
    messagesReleased (nativeMergeFiles
      (init_spdfcore_ffi (some chattySizeModule) (State.initial Nat)).state
      ["a.pdf"] "out.pdf" 0).trace = ["m2"] ∧
    (nativeMergeFiles (init_spdfcore_ffi (some chattySizeModule) (State.initial Nat)).state
      ["a.pdf"] "out.pdf" 0).trace =
      [Event.call (Call.pdf_get_file_size "a.pdf") (some "m0"),
       Event.call (Call.pdf_merge_files ["a.pdf"] 1 "out.pdf") none,
       Event.call (Call.pdf_get_file_size "out.pdf") (some "m1"),
       Event.call (Call.pdf_get_file_size "a.pdf") (some "m2"),
       Event.free_c_string "m2"] := by
  decide

end Facade

/-! ## Optional capabilities, the version query and the loaded-state invariant -/

section Capabilities
variable {W : Type}

/-- C11: optional capabilities never fail the load.  Starting with no handle,
against any provider build that opens and exports the four mandatory symbols,
`init_spdfcore_ffi` returns true whichever of the five optional symbols
(`pdf_get_file_size`, `pdf_split_by_pages`, `pdf_extract_page`,
`pdf_split_at_page`, `spdfcore_version`) the build exports; afterwards each
optional pointer holds exactly what the build exports under that name, so it is
non-null if and only if the symbol is exported. -/
theorem C11_optional_never_fails_load (m : Module W) (s : State W)
    (hs : s.spdfcore_ffi_handle = none) (hm : m.hasMandatory = true) :
    (init_spdfcore_ffi (some m) s).ret = true ∧
    ((init_spdfcore_ffi (some m) s).state.pdf_get_file_size_ptr = m.pdf_get_file_size ∧
     (init_spdfcore_ffi (some m) s).state.pdf_split_by_pages_ptr = m.pdf_split_by_pages ∧
     (init_spdfcore_ffi (some m) s).state.pdf_extract_page_ptr = m.pdf_extract_page ∧
     (init_spdfcore_ffi (some m) s).state.pdf_split_at_page_ptr = m.pdf_split_at_page ∧
     (init_spdfcore_ffi (some m) s).state.spdfcore_version_ptr = m.spdfcore_version) ∧
    (((init_spdfcore_ffi (some m) s).state.pdf_get_file_size_ptr ≠ none ↔
        m.pdf_get_file_size ≠ none) ∧
     ((init_spdfcore_ffi (some m) s).state.pdf_split_by_pages_ptr ≠ none ↔
        m.pdf_split_by_pages ≠ none) ∧
     ((init_spdfcore_ffi (some m) s).state.pdf_extract_page_ptr ≠ none ↔
        m.pdf_extract_page ≠ none) ∧
     ((init_spdfcore_ffi (some m) s).state.pdf_split_at_page_ptr ≠ none ↔
        m.pdf_split_at_page ≠ none) ∧
     ((init_spdfcore_ffi (some m) s).state.spdfcore_version_ptr ≠ none ↔
        m.spdfcore_version ≠ none)) := by
  rw [init_of_mandatory s m hs hm]
  simp

theorem C11_optional_never_fails_load_witness :
    (init_spdfcore_ffi (some mandatoryModule) (State.initial Unit)).ret = true ∧
    (init_spdfcore_ffi (some hugeSizeModule) (State.initial Unit)).ret = true ∧
    ((init_spdfcore_ffi (some hugeSizeModule) (State.initial Unit)).state.spdfcore_version_ptr
        ≠ none ↔ hugeSizeModule.spdfcore_version ≠ none) :=
  ⟨(C11_optional_never_fails_load mandatoryModule (State.initial Unit) rfl rfl).1,
   (C11_optional_never_fails_load hugeSizeModule (State.initial Unit) rfl rfl).1,
   (C11_optional_never_fails_load hugeSizeModule (State.initial Unit) rfl rfl).2.2.2.2.2.2⟩

/-- C12: version query.  nativeGetVersion first runs `init_spdfcore_ffi`: the
globals it leaves are those left by the load and its trace starts with the
loader actions of the load.  It returns "unknown" when the load returns false;
"1.0.0", without any provider call, when the load returns true and
`spdfcore_version_ptr` is null; the provider's string when the pointer is set
and the call returns a non-null string; and "unknown" when the call returns
null. -/
theorem C12_version_query (p : Provider W) (s : State W) (w : W) :
    (nativeGetVersion p s w).state = (init_spdfcore_ffi p s).state ∧
    (init_spdfcore_ffi p s).trace <+: (nativeGetVersion p s w).trace ∧
    ((init_spdfcore_ffi p s).ret = false →
      (nativeGetVersion p s w).ret = "unknown" ∧
      (nativeGetVersion p s w).trace = (init_spdfcore_ffi p s).trace) ∧
    ((init_spdfcore_ffi p s).ret = true →
      (init_spdfcore_ffi p s).state.spdfcore_version_ptr = none →
      (nativeGetVersion p s w).ret = "1.0.0" ∧
      (nativeGetVersion p s w).trace = (init_spdfcore_ffi p s).trace) ∧
    (∀ (f : spdfcore_version_func W) (str : String),
      (init_spdfcore_ffi p s).ret = true →
      (init_spdfcore_ffi p s).state.spdfcore_version_ptr = some f →
      (f w).1 = some str → (nativeGetVersion p s w).ret = str) ∧
    (∀ f : spdfcore_version_func W,
      (init_spdfcore_ffi p s).ret = true →
      (init_spdfcore_ffi p s).state.spdfcore_version_ptr = some f →
      (f w).1 = none → (nativeGetVersion p s w).ret = "unknown") := by
  refine ⟨?_, ?_, ?_, ?_, ?_, ?_⟩
  · unfold nativeGetVersion
    simp only
    split_ifs
    · rfl
    · split
      · rfl
      · split <;> rfl
  · unfold nativeGetVersion
    simp only
    split_ifs
    · exact List.prefix_refl _
    · split
      · exact List.prefix_refl _
      · split <;> exact List.prefix_append _ _
  · intro h
    simp [nativeGetVersion, h]
  · intro h hv
    simp [nativeGetVersion, h, hv]
  · intro f str h hv hstr
    simp [nativeGetVersion, h, hv, hstr]
  · intro f h hv hnull
    simp [nativeGetVersion, h, hv, hnull]

theorem C12_version_query_witness :
    (nativeGetVersion (some mergeOnlyModule) (State.initial Unit) ()).ret = "unknown" ∧
    (nativeGetVersion (some mandatoryModule) (State.initial Unit) ()).ret = "1.0.0" ∧
    (nativeGetVersion (some (versionModule (some "2.3.1"))) (State.initial Unit) ()).ret
      = "2.3.1" ∧
    (nativeGetVersion (some (versionModule none)) (State.initial Unit) ()).ret = "unknown" :=
  ⟨((C12_version_query (some mergeOnlyModule) (State.initial Unit) ()).2.2.1 (by decide)).1,
   ((C12_version_query (some mandatoryModule) (State.initial Unit) ()).2.2.2.1
      (by decide) rfl).1,
   (C12_version_query (some (versionModule (some "2.3.1"))) (State.initial Unit) ()).2.2.2.2.1
      _ "2.3.1" (by decide) rfl rfl,
   (C12_version_query (some (versionModule none)) (State.initial Unit) ()).2.2.2.2.2
      _ (by decide) rfl rfl⟩

/-- C14 (the code departs from the claim): the state reached from the initial
one by a single `init_spdfcore_ffi` call against a provider build that exports
`pdf_merge_files`, `pdf_validate` and `pdf_get_page_count` but not
`free_c_string`.  The load fails and the handle is empty, yet the three
pointers resolved before the failure are non-null. -/
theorem C14_empty_handle_with_resolved_pointers :
    Reachable (init_spdfcore_ffi (some noReleaseModule) (State.initial Unit)).state ∧
    (init_spdfcore_ffi (some noReleaseModule) (State.initial Unit)).ret = false ∧
    (init_spdfcore_ffi (some noReleaseModule)
      (State.initial Unit)).state.spdfcore_ffi_handle.isNone = true ∧
    (init_spdfcore_ffi (some noReleaseModule)
      (State.initial Unit)).state.pdf_merge_files_ptr.isSome = true ∧
    (init_spdfcore_ffi (some noReleaseModule)
      (State.initial Unit)).state.pdf_validate_ptr.isSome = true ∧
    (init_spdfcore_ffi (some noReleaseModule)
      (State.initial Unit)).state.pdf_get_page_count_ptr.isSome = true ∧
    (init_spdfcore_ffi (some noReleaseModule)
      (State.initial Unit)).state.free_c_string_ptr.isNone = true :=
  ⟨Reachable.init _ _ Reachable.initial, by decide, by decide, by decide, by decide, by decide,
    by decide⟩

end Capabilities

/-! ## Marshaling of the merge call -/

section Marshaling
variable {W : Type}

theorem providerCalls_append (t u : List Event) :
    providerCalls (t ++ u) = providerCalls t ++ providerCalls u := by
  simp [providerCalls, List.filterMap_append]

theorem mergeCalls_append (t u : List Event) :
    mergeCalls (t ++ u) = mergeCalls t ++ mergeCalls u := by
  simp [mergeCalls, providerCalls_append]

theorem mergeCalls_size_probe (path : String) (msg : Option String) (t : List Event) :
    mergeCalls (Event.call (Call.pdf_get_file_size path) msg :: t) = mergeCalls t := by
  simp [mergeCalls, providerCalls, Call.isMerge]

theorem mergeCalls_release (str : String) (t : List Event) :
    mergeCalls (Event.free_c_string str :: t) = mergeCalls t := by
  simp [mergeCalls, providerCalls]

theorem mergeCalls_free_if_set (s : State W) (msg : Option String) (w w2 : W)
    (t2 : List Event) (h : free_if_set s msg w = some (w2, t2)) : mergeCalls t2 = [] := by
  cases msg with
  | none =>
    simp only [free_if_set, Option.some.injEq, Prod.mk.injEq] at h
    rw [← h.2]; rfl
  | some str =>
    cases hp : s.free_c_string_ptr with
    | none => simp [free_if_set, call_free_c_string, hp] at h
    | some free =>
      simp only [free_if_set, call_free_c_string, hp, Option.some.injEq, Prod.mk.injEq] at h
      rw [← h.2]; rfl

theorem mergeInputLoop_mergeCalls (s : State W) (paths : List String) (w : W) :
    mergeCalls (mergeInputLoop s paths w).trace = [] := by
  induction paths generalizing w with
  | nil => rfl
  | cons path rest ih =>
    unfold mergeInputLoop
    cases hsz : s.pdf_get_file_size_ptr with
    | none => simpa using ih w
    | some g =>
      simp only
      split_ifs with hok
      · simp only [List.singleton_append, mergeCalls_size_probe]
        exact ih _
      · cases hfr : free_if_set s (g path w).1.error_message (g path w).2 with
        | none => simp [mergeCalls_size_probe]; rfl
        | some r =>
          obtain ⟨w2, t2⟩ := r
          simp only [List.singleton_append, List.cons_append, mergeCalls_size_probe,
            mergeCalls_append, mergeCalls_free_if_set s _ _ _ _ hfr, List.nil_append]
          exact ih _

theorem mergeTotalLoop_mergeCalls (s : State W) (g : pdf_get_file_size_func W)
    (paths : List String) (total : Nat) (w : W) :
    mergeCalls (mergeTotalLoop s g paths total w).trace = [] := by
  induction paths generalizing total w with
  | nil => rfl
  | cons path rest ih =>
    unfold mergeTotalLoop
    simp only
    cases hfr : free_if_set s (g path w).1.error_message (g path w).2 with
    | none => simp [mergeCalls_size_probe]; rfl
    | some r =>
      obtain ⟨w2, t2⟩ := r
      simp only [List.singleton_append, List.cons_append, mergeCalls_size_probe,
        mergeCalls_append, mergeCalls_free_if_set s _ _ _ _ hfr, List.nil_append]
      exact ih _ _

theorem mergeOutputVerification_mergeCalls (s : State W) (paths : List String) (out : String)
    (merge : Reply Unit) (w : W) :
    mergeCalls (mergeOutputVerification s paths out merge w).trace = [] := by
  unfold mergeOutputVerification
  cases hsz : s.pdf_get_file_size_ptr with
  | none => rfl
  | some g =>
    simp only
    split_ifs with h1 h2
    · simp only [List.singleton_append, mergeCalls_size_probe]
      exact mergeTotalLoop_mergeCalls s g paths 0 _
    · cases hfr : free_if_set s (g out w).1.error_message (g out w).2 with
      | none => simp [mergeCalls_size_probe]; rfl
      | some r =>
        obtain ⟨w2, t2⟩ := r
        simp only [List.singleton_append, mergeCalls_size_probe,
          mergeCalls_free_if_set s _ _ _ _ hfr]
    · rfl

theorem nativeMergeFiles_mergeCalls (s : State W) (f : pdf_merge_files_func W)
    (free : free_c_string_func W) (hf : s.pdf_merge_files_ptr = some f)
    (hfree : s.free_c_string_ptr = some free) (inputPaths : List String)
    (outputPath : String) (w : W) :
    mergeCalls (nativeMergeFiles s inputPaths outputPath w).trace =
      [Call.pdf_merge_files inputPaths inputPaths.length outputPath] := by
  unfold nativeMergeFiles
  simp only [hf, jstringArrayToVector_eq, mergeInputLoop_ret s free hfree]
  cases hfr : free_if_set s
      (f inputPaths inputPaths.length outputPath (mergeInputLoop s inputPaths w).world).1.error_message
      (f inputPaths inputPaths.length outputPath (mergeInputLoop s inputPaths w).world).2 with
  | none => rw [free_if_set_of_free s free hfree] at hfr; simp at hfr
  | some r =>
    obtain ⟨w3, t3⟩ := r
    simp only [mergeOutputVerification_ret s free hfree, mergeCalls_append,
      mergeInputLoop_mergeCalls, mergeCalls_free_if_set s _ _ _ _ hfr,
      mergeOutputVerification_mergeCalls, List.nil_append, List.append_nil]
    simp [mergeCalls, providerCalls, Call.isMerge]

/-- C13: merge marshaling preserves order and count.  With
`pdf_merge_files_ptr` and `free_c_string_ptr` resolved (every loaded state, by
`loaded_has_mandatory`), a run of nativeMergeFiles on the input paths
`inputPaths` and the output path `outputPath` invokes `pdf_merge_files` exactly
once, and that call receives the array `inputPaths` itself (same length, same
element at every index, in the caller's order), `path_count` equal to the
number of input paths, and `outputPath` unchanged. -/
theorem C13_merge_marshaling (s : State W) (f : pdf_merge_files_func W)
    (free : free_c_string_func W) (hf : s.pdf_merge_files_ptr = some f)
    (hfree : s.free_c_string_ptr = some free) (inputPaths : List String)
    (outputPath : String) (w : W) :
    mergeCalls (nativeMergeFiles s inputPaths outputPath w).trace =
      [Call.pdf_merge_files inputPaths inputPaths.length outputPath] ∧
    (∀ (input_paths : List String) (path_count : Nat) (output_path : String),
      Call.pdf_merge_files input_paths path_count output_path ∈
        providerCalls (nativeMergeFiles s inputPaths outputPath w).trace →
      path_count = inputPaths.length ∧
      input_paths.length = inputPaths.length ∧
      (∀ i : Nat, input_paths[i]? = inputPaths[i]?) ∧
      output_path = outputPath) := by
  have h := nativeMergeFiles_mergeCalls s f free hf hfree inputPaths outputPath w
  refine ⟨h, ?_⟩
  intro input_paths path_count output_path hmem
  have hin : Call.pdf_merge_files input_paths path_count output_path ∈
      mergeCalls (nativeMergeFiles s inputPaths outputPath w).trace := by
    simp only [mergeCalls, List.mem_filter]
    exact ⟨hmem, rfl⟩
  rw [h] at hin
  simp only [List.mem_singleton, Call.pdf_merge_files.injEq] at hin
  obtain ⟨h1, h2, h3⟩ := hin
  subst h1 h2 h3
  exact ⟨rfl, rfl, fun _ => rfl, rfl⟩

theorem C13_merge_marshaling_witness :
    mergeCalls (nativeMergeFiles
      (init_spdfcore_ffi (some chattySizeModule) (State.initial Nat)).state
      ["c.pdf", "a.pdf", "b.pdf"] "out.pdf" 0).trace =
      [Call.pdf_merge_files ["c.pdf", "a.pdf", "b.pdf"] 3 "out.pdf"] :=
  (C13_merge_marshaling (init_spdfcore_ffi (some chattySizeModule) (State.initial Nat)).state
    _ (fun _ w => w) rfl rfl ["c.pdf", "a.pdf", "b.pdf"] "out.pdf" 0).1

/-- C15: the merge result is independent of the size probes.  Take two states
of the globals with the same `pdf_merge_files_ptr` and the same
`free_c_string_ptr`, whatever their `pdf_get_file_size_ptr` (null or any entry
point, answering anything) and their other pointers, and run nativeMergeFiles
in both on the same input list and output path.  If the merge call answers
`rep` in both runs, both runs return the same value, namely whether
`rep.result` is true and `rep.error_code` is Success, and both make exactly one
`pdf_merge_files` call, with the same arguments: the caller's list, its length
and the caller's output path. -/
theorem C15_merge_independent_of_probes (s1 s2 : State W) (f : pdf_merge_files_func W)
    (free : free_c_string_func W)
    (hf1 : s1.pdf_merge_files_ptr = some f) (hf2 : s2.pdf_merge_files_ptr = some f)
    (hfree1 : s1.free_c_string_ptr = some free) (hfree2 : s2.free_c_string_ptr = some free)
    (inputPaths : List String) (outputPath : String) (rep : Reply Unit)
    (w : W)
    (hrep1 : (f inputPaths inputPaths.length outputPath
      (mergeInputLoop s1 inputPaths w).world).1 = rep)
    (hrep2 : (f inputPaths inputPaths.length outputPath
      (mergeInputLoop s2 inputPaths w).world).1 = rep) :
    (nativeMergeFiles s1 inputPaths outputPath w).ret =
      (nativeMergeFiles s2 inputPaths outputPath w).ret ∧
    (nativeMergeFiles s1 inputPaths outputPath w).ret =
      some (rep.result && (rep.error_code == PdfErrorCode.Success)) ∧
    mergeCalls (nativeMergeFiles s1 inputPaths outputPath w).trace =
      mergeCalls (nativeMergeFiles s2 inputPaths outputPath w).trace ∧
    mergeCalls (nativeMergeFiles s1 inputPaths outputPath w).trace =
      [Call.pdf_merge_files inputPaths inputPaths.length outputPath] := by
  rw [nativeMergeFiles_ret s1 f free hf1 hfree1, nativeMergeFiles_ret s2 f free hf2 hfree2,
    nativeMergeFiles_mergeCalls s1 f free hf1 hfree1,
    nativeMergeFiles_mergeCalls s2 f free hf2 hfree2, hrep1, hrep2]
  exact ⟨rfl, rfl, rfl, rfl⟩

theorem C15_merge_independent_of_probes_witness :
    (nativeMergeFiles (init_spdfcore_ffi (some mandatoryModule) (State.initial Unit)).state
      ["a.pdf", "b.pdf"] "out.pdf" ()).ret =
    (nativeMergeFiles (init_spdfcore_ffi (some hugeSizeModule) (State.initial Unit)).state
      ["a.pdf", "b.pdf"] "out.pdf" ()).ret :=
  (C15_merge_independent_of_probes
    (init_spdfcore_ffi (some mandatoryModule) (State.initial Unit)).state
    (init_spdfcore_ffi (some hugeSizeModule) (State.initial Unit)).state
    (fun _ _ _ w => (Reply.ok (), w)) (fun _ w => w) rfl rfl rfl rfl
    ["a.pdf", "b.pdf"] "out.pdf" (Reply.ok ()) () rfl rfl).1

end Marshaling

end Spdfcore
